import Mathlib

/-!
Verification of the task-mutation / recurrence / notification core of the
advanced-todo-fastapi repository, as a shallow embedding in Lean 4.

Conventions of the embedding:
* Python `datetime` values are modelled by `Date` (year, month, day); all the
  properties under study use midnight timestamps, so the time of day is dropped.
* Python `None` / optional strings are `Option String`; Python truthiness of a
  string (`if not s`) is `s = none ∨ s = some ""`.
* Database sessions are modelled as explicit `List Task` / `List Notification`
  stores passed through the functions; a committed row update is a `List.map`
  keyed on the primary key, a delete is a `List.filter`, an insert an append.
* The Dapr publisher re-raises publishing failures (`app/dapr/client.py`),
  so each publish call is modelled by a `Bool` oracle: `true` means the call
  returned, `false` means it raised.
-/

namespace TodoApp

/-! ## Calendar arithmetic (embedding of Python `datetime` / `calendar`) -/

/-- A calendar date: proleptic Gregorian year, month (1-12) and day (1-31). -/
structure Date where
  year : Nat
  month : Nat
  day : Nat
deriving DecidableEq, Repr

/-- Gregorian leap-year rule, as used by Python's `calendar.monthrange`. -/
def isLeap (y : Nat) : Bool :=
  (y % 4 == 0 && y % 100 != 0) || y % 400 == 0

/-- Number of days in a month: `calendar.monthrange(y, m)[1]`. -/
def daysInMonth (y m : Nat) : Nat :=
  if m = 2 then (if isLeap y then 29 else 28)
  else if m = 4 ∨ m = 6 ∨ m = 9 ∨ m = 11 then 30
  else 31

/-- The dates representable by Python's `datetime.date`. -/
def Date.Valid (d : Date) : Prop :=
  1 ≤ d.year ∧ 1 ≤ d.month ∧ d.month ≤ 12 ∧ 1 ≤ d.day ∧ d.day ≤ daysInMonth d.year d.month

instance (d : Date) : Decidable d.Valid := by
  unfold Date.Valid; infer_instance

/-- The day after `d`, with month and year rollover:
`datetime + timedelta(days=1)`. -/
def nextDay (d : Date) : Date :=
  if d.day < daysInMonth d.year d.month then ⟨d.year, d.month, d.day + 1⟩
  else if d.month < 12 then ⟨d.year, d.month + 1, 1⟩
  else ⟨d.year + 1, 1, 1⟩

/-- `d + timedelta(days=n)`. -/
def addDays (d : Date) (n : Nat) : Date :=
  nextDay^[n] d

/-- Days in months `1..m` of year `y`. -/
def cumDays (y : Nat) : Nat → Nat
  | 0 => 0
  | m + 1 => cumDays y m + daysInMonth y (m + 1)

/-- Length of year `y` in days. -/
def daysInYear (y : Nat) : Nat := cumDays y 12

/-- Total days in years `1..y`. -/
def daysBeforeYear : Nat → Nat
  | 0 => 0
  | y + 1 => daysBeforeYear y + daysInYear (y + 1)

/-- Rata-die style day count: `toDays ⟨1,1,1⟩ = 1`, and consecutive valid
dates have consecutive counts. -/
def toDays (d : Date) : Nat :=
  daysBeforeYear (d.year - 1) + cumDays d.year (d.month - 1) + d.day

/-- Python's `date.weekday()`: Monday = 0, ..., Sunday = 6.
Day 1 (0001-01-01) is a Monday in the proleptic Gregorian calendar,
matching `datetime.date(1,1,1).weekday() == 0`. -/
def pyWeekday (d : Date) : Nat := (toDays d + 6) % 7

theorem daysInMonth_pos (y m : Nat) : 1 ≤ daysInMonth y m := by
  unfold daysInMonth
  split
  · split <;> omega
  · split <;> omega

theorem valid_nextDay {d : Date} (h : d.Valid) : (nextDay d).Valid := by
  obtain ⟨hy, hm1, hm2, hd1, hd2⟩ := h
  unfold nextDay
  split
  · unfold Date.Valid
    dsimp only
    omega
  · split
    · have := daysInMonth_pos d.year (d.month + 1)
      unfold Date.Valid
      dsimp only
      omega
    · have := daysInMonth_pos (d.year + 1) 1
      unfold Date.Valid
      dsimp only
      omega

theorem daysInMonth_twelve (y : Nat) : daysInMonth y 12 = 31 := by
  unfold daysInMonth
  norm_num

theorem toDays_nextDay {d : Date} (h : d.Valid) :
    toDays (nextDay d) = toDays d + 1 := by
  obtain ⟨hy, hm1, hm2, hd1, hd2⟩ := h
  unfold nextDay toDays
  split
  · dsimp only
    omega
  · split
    · -- month rollover: day = daysInMonth, month < 12
      dsimp only
      obtain ⟨k, hk⟩ : ∃ k, d.month = k + 1 := ⟨d.month - 1, by omega⟩
      have hcum : cumDays d.year (d.month + 1 - 1) =
          cumDays d.year (d.month - 1) + daysInMonth d.year d.month := by
        rw [hk]
        simp [cumDays]
      rw [hcum]
      omega
    · -- year rollover: month = 12, day = 31
      rename_i hlt hmge
      have hm12 : d.month = 12 := by omega
      rw [hm12] at hlt hd2
      rw [daysInMonth_twelve] at hlt hd2
      have hday : d.day = 31 := by omega
      dsimp only
      obtain ⟨z, hz⟩ : ∃ z, d.year = z + 1 := ⟨d.year - 1, by omega⟩
      have hby : daysBeforeYear (d.year + 1 - 1) =
          daysBeforeYear (d.year - 1) + daysInYear d.year := by
        rw [hz]
        simp [daysBeforeYear]
      rw [hby]
      have hdy : daysInYear d.year = cumDays d.year 11 + 31 := by
        unfold daysInYear
        have h12 : cumDays d.year 12 = cumDays d.year 11 + daysInMonth d.year 12 := by
          simp [cumDays]
        rw [h12, daysInMonth_twelve]
      rw [hdy, hm12, hday]
      simp only [cumDays]
      omega

theorem valid_addDays {d : Date} (h : d.Valid) (n : Nat) : (addDays d n).Valid := by
  induction n with
  | zero => simpa [addDays] using h
  | succ k ih =>
    have : addDays d (k + 1) = nextDay (addDays d k) := by
      simp [addDays, Function.iterate_succ_apply']
    rw [this]
    exact valid_nextDay ih

theorem toDays_addDays {d : Date} (h : d.Valid) (n : Nat) :
    toDays (addDays d n) = toDays d + n := by
  induction n with
  | zero => simp [addDays]
  | succ k ih =>
    have h2 : addDays d (k + 1) = nextDay (addDays d k) := by
      simp [addDays, Function.iterate_succ_apply']
    rw [h2, toDays_nextDay (valid_addDays h k), ih]
    omega

theorem pyWeekday_addDays {d : Date} (h : d.Valid) (n : Nat) :
    pyWeekday (addDays d n) = (pyWeekday d + n) % 7 := by
  unfold pyWeekday
  rw [toDays_addDays h n]
  omega

/-! ## String helpers (Python truthiness and the `in` substring operator) -/

/-- Python truthiness of an optional string: `None` and `""` are falsy. -/
def strTruthy : Option String → Bool
  | none => false
  | some s => s ≠ ""

/-- Whether `pat` is equal to an initial segment of `s` (character lists). -/
def startsWithL : List Char → List Char → Bool
  | [], _ => true
  | _ :: _, [] => false
  | a :: as, b :: bs => a == b && startsWithL as bs

/-- Python's `pat in s` on character lists. -/
def containsSubL (pat : List Char) : List Char → Bool
  | [] => startsWithL pat []
  | b :: bs => startsWithL pat (b :: bs) || containsSubL pat bs

/-- Python's substring test `pat in s`. -/
def containsSub (s pat : String) : Bool := containsSubL pat.data s.data

/-- Python's `str.strip()`: drop leading and trailing whitespace. -/
def pyStrip (s : String) : String :=
  String.mk (((s.data.dropWhile Char.isWhitespace).reverse.dropWhile
    Char.isWhitespace).reverse)

/-! ## Recurrence Calculator
Embedding of `RecurringTaskService.calculate_next_occurrence`
(`src/app/services/recurring_task_service.py`, lines 38-78; the file
`src/recurring-task-service/src/services/recurring_task_service.py`
lines 24-63 is an identical copy). -/

/-- The `monthly` branch: same day next month, the day clamped to
`calendar.monthrange(next_year, next_month)[1]`. -/
def monthlyNext (d : Date) : Date :=
  let nm := d.month + 1
  let ny := d.year
  let p := if 12 < nm then (ny + 1, 1) else (ny, nm)
  let maxDay := daysInMonth p.1 p.2
  ⟨p.1, p.2, min d.day maxDay⟩

/-- The `every_weekday` loop: starting at `d`, add one day while the weekday
is Saturday (5) or Sunday (6). The Python loop is unbounded; on valid dates
it runs at most two steps, so fuel 7 is never exhausted. -/
def weekdaySearch : Nat → Date → Date
  | 0, d => d
  | fuel + 1, d => if 5 ≤ pyWeekday d then weekdaySearch fuel (nextDay d) else d

/-- `next_date = last_completion + timedelta(days=1)` followed by the
skip-weekend while loop. -/
def nextWeekdayFrom (d : Date) : Date := weekdaySearch 7 (nextDay d)

/-- `RecurringTaskService.calculate_next_occurrence(recurrence,
recurrence_rule, last_completion)`. -/
def calculate_next_occurrence (recurrence recurrence_rule : Option String)
    (last_completion : Date) : Option Date :=
  match recurrence with
  | none => none
  | some r =>
    if r = "" then none
    else if r = "daily" then some (addDays last_completion 1)
    else if r = "weekly" then some (addDays last_completion 7)
    else if r = "monthly" then some (monthlyNext last_completion)
    else if r = "custom" then
      match recurrence_rule with
      | none => none
      | some rule =>
        if rule = "" then none
        else if containsSub rule "every_2_days" then some (addDays last_completion 2)
        else if containsSub rule "every_weekday" then some (nextWeekdayFrom last_completion)
        else none
    else none

theorem addDays_succ (d : Date) (n : Nat) : addDays d (n + 1) = nextDay (addDays d n) := by
  simp [addDays, Function.iterate_succ_apply']

theorem weekdaySearch_step (fuel : Nat) {d : Date} (h : 5 ≤ pyWeekday d) :
    weekdaySearch (fuel + 1) d = weekdaySearch fuel (nextDay d) := by
  conv_lhs => rw [weekdaySearch]
  rw [if_pos h]

theorem weekdaySearch_stop (fuel : Nat) {d : Date} (h : pyWeekday d < 5) :
    weekdaySearch (fuel + 1) d = d := by
  unfold weekdaySearch
  rw [if_neg (by omega)]

/-- From a Friday, the skip-weekend loop lands on the following Monday. -/
theorem nextWeekdayFrom_friday {F : Date} (hV : F.Valid) (hw : pyWeekday F = 4) :
    nextWeekdayFrom F = addDays F 3 := by
  have w1 : pyWeekday (addDays F 1) = 5 := by rw [pyWeekday_addDays hV]; omega
  have w2 : pyWeekday (addDays F 2) = 6 := by rw [pyWeekday_addDays hV]; omega
  have e1 : nextDay F = addDays F 1 := by simp [addDays]
  have e2 : nextDay (addDays F 1) = addDays F 2 := by
    have h := addDays_succ F 1
    norm_num at h
    exact h.symm
  have e3 : nextDay (addDays F 2) = addDays F 3 := by
    have h := addDays_succ F 2
    norm_num at h
    exact h.symm
  have w3 : pyWeekday (addDays F 3) = 0 := by rw [pyWeekday_addDays hV]; omega
  unfold nextWeekdayFrom
  rw [e1]
  rw [show (7 : Nat) = 6 + 1 from rfl, weekdaySearch_step 6 (by omega), e2]
  rw [show (6 : Nat) = 5 + 1 from rfl, weekdaySearch_step 5 (by omega), e3]
  rw [show (5 : Nat) = 4 + 1 from rfl, weekdaySearch_stop 4 (by omega)]

theorem calc_custom_rule (rule : String) (hne : rule ≠ "")
    (h2 : containsSub rule "every_2_days" = false)
    (hw : containsSub rule "every_weekday" = true) (T : Date) :
    calculate_next_occurrence (some "custom") (some rule) T = some (nextWeekdayFrom T) := by
  simp [calculate_next_occurrence, hne, h2, hw]

/-- C5: the pure next-occurrence calculator satisfies the three specified
equations: daily adds one day to any timestamp; monthly from 2026-01-31
clamps to 2026-02-28; and the `every_weekday` custom rule maps any valid
Friday to the following Monday (three days later, a Monday). -/
theorem nextOccurrence_daily_monthly_weekday :
    (∀ (rule : Option String) (T : Date),
        calculate_next_occurrence (some "daily") rule T = some (addDays T 1))
    ∧ (∀ rule : Option String,
        calculate_next_occurrence (some "monthly") rule ⟨2026, 1, 31⟩ = some ⟨2026, 2, 28⟩)
    ∧ (∀ F : Date, F.Valid → pyWeekday F = 4 →
        calculate_next_occurrence (some "custom") (some "every_weekday") F
            = some (addDays F 3) ∧ pyWeekday (addDays F 3) = 0) := by
  refine ⟨?_, ?_, ?_⟩
  · intro rule T
    simp [calculate_next_occurrence]
  · intro rule
    simp [calculate_next_occurrence, monthlyNext, daysInMonth, isLeap]
  · intro F hV hw
    rw [calc_custom_rule "every_weekday" (by decide) (by decide) (by decide)]
    rw [nextWeekdayFrom_friday hV hw]
    refine ⟨rfl, ?_⟩
    rw [pyWeekday_addDays hV]
    omega

/-- Witness for C5 at the concrete Friday 0001-01-05. -/
theorem nextOccurrence_daily_monthly_weekday_witness :
    calculate_next_occurrence (some "custom") (some "every_weekday") ⟨1, 1, 5⟩
        = some (addDays ⟨1, 1, 5⟩ 3) ∧ pyWeekday (addDays ⟨1, 1, 5⟩ 3) = 0 :=
  nextOccurrence_daily_monthly_weekday.2.2 ⟨1, 1, 5⟩ (by decide) (by decide)

/-! ## Data model (`app/models/task.py`, `notification-service/src/models/notification.py`)
`created_at` / `updated_at` / notification instants are abstract `Nat`
timestamps: nothing under study depends on their calendar structure. -/

/-- The Task entity. `id` is `none` until the store assigns a primary key. -/
structure Task where
  id : Option Nat
  user_id : String
  title : String
  description : Option String
  completed : Bool
  priority : String
  due_date : Option Date
  tags : List String
  recurrence : Option String
  recurrence_rule : Option String
  next_occurrence : Option Date
  created_at : Nat
  updated_at : Nat
deriving DecidableEq, Repr

/-- The Notification entity. -/
structure Notification where
  id : Nat
  task_id : Nat
  user_id : String
  scheduled_time : Nat
  sent_time : Option Nat
  status : String
  delivery_attempts : Nat
  channel : String
  message_content : String
deriving DecidableEq, Repr

/-- The structured error carried by `MCPToolError`: code, message and the
`details` dict (modelled as an association list). -/
structure MCPError where
  code : String
  message : String
  details : List (String × String)
deriving DecidableEq, Repr

/-- `BaseMCPTool.validate_user_id` failure value. -/
def unauthorizedError : MCPError :=
  ⟨"UNAUTHORIZED", "Invalid or missing user_id", [("field", "user_id")]⟩

/-- The "Task {task_id} not found" error raised by the tools when the id is
absent from the store (`complete_task.py`, `delete_task.py`, `view_task.py`). -/
def notFoundTaskError (task_id : Nat) : MCPError :=
  ⟨"NOT_FOUND", "Task " ++ toString task_id ++ " not found",
    [("task_id", toString task_id)]⟩

/-! ## Ownership Gate (`app/mcp/base_tool.py`, lines 47-87) -/

/-- `BaseMCPTool.validate_ownership`: `some e` models raising `e`. -/
def validate_ownership (resource_user_id requesting_user_id : String) :
    Option MCPError :=
  if resource_user_id ≠ requesting_user_id then
    some ⟨"NOT_FOUND", "Resource not found", []⟩
  else none

/-- `BaseMCPTool.validate_user_id`: raises UNAUTHORIZED on a falsy user id. -/
def validate_user_id (user_id : String) : Option MCPError :=
  if user_id = "" then some unauthorizedError else none

/-! ## TaskService (`app/services/task_service.py`) -/

/-- `TaskService.get_by_id`: select by id *and* owner, first match. -/
def get_by_id (store : List Task) (task_id : Nat) (user_id : String) : Option Task :=
  (store.filter (fun t => t.id == some task_id && t.user_id == user_id)).head?

/-- `TaskService.toggle_complete`: flips `completed`, stamps `updated_at`;
the updated row replaces the old one in the store, keyed by primary key. -/
def toggle_complete (store : List Task) (task_id : Nat) (user_id : String)
    (now : Nat) : Option Task × List Task :=
  match get_by_id store task_id user_id with
  | none => (none, store)
  | some t =>
    let t2 := { t with completed := ¬t.completed, updated_at := now }
    (some t2, store.map (fun x => if x.id == some task_id && x.user_id == user_id then t2 else x))

/-- `TaskService.create_advanced`: an out-of-range priority is silently
coerced to "medium" (no error is raised), then the task is inserted. -/
def create_advanced (store : List Task) (user_id title : String)
    (description : Option String) (priority : String) (due_date : Option Date)
    (tags : List String) (recurrence recurrence_rule : Option String)
    (now : Nat) : List Task × Task :=
  let p := if priority = "high" ∨ priority = "medium" ∨ priority = "low"
           then priority else "medium"
  let t : Task :=
    { id := none, user_id := user_id, title := title, description := description,
      completed := false, priority := p, due_date := due_date, tags := tags,
      recurrence := recurrence, recurrence_rule := recurrence_rule,
      next_occurrence := none, created_at := now, updated_at := now }
  (store ++ [t], t)

/-! ## CompleteTaskTool (`app/mcp/tools/complete_task.py`) -/

/-- Fallback branch of `CompleteTaskTool.execute` (lines 61-109): a fresh
session reads the task by id only, ownership is validated, and `completed`
is set to `True` unconditionally (no toggle). `.error e` models a raised
`MCPToolError`. -/
def completeFallback (store : List Task) (user_id : String) (task_id : Nat)
    (now : Nat) : Except MCPError (List Task × Task) :=
  match store.find? (fun t => t.id == some task_id) with
  | none => .error (notFoundTaskError task_id)
  | some t =>
    match validate_ownership t.user_id user_id with
    | some e => .error e
    | none =>
      let t2 := { t with completed := true, updated_at := now }
      .ok (store.map (fun x => if x.id == some task_id then t2 else x), t2)

/-- Everything observable about one `CompleteTaskTool.execute` call:
the returned/raised value, whether the intent event went out on the bus,
whether the fallback committed a store write, and the post-call store. -/
structure CompleteOutcome where
  result : Except MCPError (Option Task)
  published : Bool
  dbMutated : Bool
  storeAfter : List Task
deriving Repr

/-- `CompleteTaskTool.execute`: publish `task.completed`; if and only if the
publish raises, perform the synchronous store update in the same call.
On the bus path the response is provisional (`.ok none`: no concrete
record) and the store is untouched. -/
def completeTaskExecute (publishOk : Bool) (store : List Task)
    (user_id : String) (task_id : Nat) (now : Nat) : CompleteOutcome :=
  if user_id = "" then ⟨.error unauthorizedError, false, false, store⟩
  else if publishOk then ⟨.ok none, true, false, store⟩
  else
    match completeFallback store user_id task_id now with
    | .error e => ⟨.error e, false, false, store⟩
    | .ok (s2, t2) => ⟨.ok (some t2), false, true, s2⟩

/-! ## ViewTaskTool (`app/mcp/tools/view_task.py`) -/

/-- `ViewTaskTool.execute`: read by id only, then the Ownership Gate. -/
def viewTaskExecute (store : List Task) (user_id : String) (task_id : Nat) :
    Except MCPError Task :=
  if user_id = "" then .error unauthorizedError
  else
    match store.find? (fun t => t.id == some task_id) with
    | none => .error (notFoundTaskError task_id)
    | some t =>
      match validate_ownership t.user_id user_id with
      | some e => .error e
      | none => .ok t

/-! ## DeleteTaskTool (`app/mcp/tools/delete_task.py`)
The tool reads the task in its own session `s1`; the fallback after a failed
publish opens a fresh session `s2` (which may see different state), re-reads
and re-validates ownership there. -/

/-- Observable outcome of one `DeleteTaskTool.execute` call. -/
structure DeleteOutcome where
  result : Except MCPError (Nat × String)
  published : Bool
  s1After : List Task
  s2After : List Task
  deletedInS1 : Bool
  deletedInS2 : Bool
deriving Repr

/-- `DeleteTaskTool.execute`. On a successful publish the task is *also*
deleted in the tool's own session in the same call; on a publish failure the
fallback re-reads and re-validates against the fresh session before deleting
there. -/
def deleteTaskExecute (publishOk : Bool) (s1 s2 : List Task)
    (user_id : String) (task_id : Nat) : DeleteOutcome :=
  if user_id = "" then ⟨.error unauthorizedError, false, s1, s2, false, false⟩
  else
    match s1.find? (fun t => t.id == some task_id) with
    | none => ⟨.error (notFoundTaskError task_id), false, s1, s2, false, false⟩
    | some t =>
      match validate_ownership t.user_id user_id with
      | some e => ⟨.error e, false, s1, s2, false, false⟩
      | none =>
        if publishOk then
          ⟨.ok (task_id, t.title), true,
            s1.filter (fun x => x.id != some task_id), s2, true, false⟩
        else
          match s2.find? (fun x => x.id == some task_id) with
          | none => ⟨.error (notFoundTaskError task_id), false, s1, s2, false, false⟩
          | some t2 =>
            match validate_ownership t2.user_id user_id with
            | some e => ⟨.error e, false, s1, s2, false, false⟩
            | none =>
              ⟨.ok (task_id, t.title), false, s1,
                s2.filter (fun x => x.id != some task_id), false, true⟩

/-! ## AddTaskTool (`app/mcp/tools/add_task.py`) -/

/-- A create request as received by `AddTaskTool.execute`. -/
structure AddReq where
  user_id : String
  title : String
  description : Option String
  priority : String
  due_date : Option Date
  tags : List String
  recurrence : Option String
  recurrence_rule : Option String
deriving Repr

/-- Observable outcome of one `AddTaskTool.execute` call. `inserted` is the
row committed by the fallback direct write (`none` on the bus path),
`publishedCreated` / `publishedReminder` record which events went out. -/
structure AddOutcome where
  result : Except MCPError (Option Task)
  publishedCreated : Bool
  publishedReminder : Bool
  inserted : Option Task
deriving Repr

/-- `description.strip() if description and isinstance(description, str) else
description`. -/
def stripDescription : Option String → Option String
  | none => none
  | some d => some (if d = "" then d else pyStrip d)

/-- The task row committed by the fallback direct write of
`AddTaskTool.execute` (lines 140-158), with the fresh primary key `freshId`. -/
def addFallbackTask (r : AddReq) (freshId now : Nat) : Task :=
  { id := some freshId, user_id := r.user_id, title := pyStrip r.title,
    description := stripDescription r.description, completed := false,
    priority := r.priority, due_date := r.due_date, tags := r.tags,
    recurrence := r.recurrence, recurrence_rule := r.recurrence_rule,
    next_occurrence := none, created_at := now, updated_at := now }

/-- `AddTaskTool.execute`. Field validation happens before any publish; the
`try` block publishes `task.created` and then, when a due date is present,
`task.due_scheduled`; *any* exception in that block (including one raised by
the reminder publish after the create publish already succeeded) falls back
to the direct database insert. -/
def addTaskExecute (pubCreatedOk pubReminderOk : Bool) (r : AddReq)
    (freshId now : Nat) : AddOutcome :=
  if r.user_id = "" then ⟨.error unauthorizedError, false, false, none⟩
  else if pyStrip r.title = "" then
    ⟨.error ⟨"VALIDATION_ERROR", "Task title cannot be empty", [("field", "title")]⟩,
      false, false, none⟩
  else if ¬(r.priority = "high" ∨ r.priority = "medium" ∨ r.priority = "low") then
    ⟨.error ⟨"VALIDATION_ERROR", "Priority must be one of: high, medium, low",
      [("field", "priority")]⟩, false, false, none⟩
  else if r.tags ≠ [] ∧ 10 < r.tags.length then
    ⟨.error ⟨"VALIDATION_ERROR", "Maximum 10 tags per task allowed",
      [("field", "tags")]⟩, false, false, none⟩
  else if r.tags ≠ [] ∧ r.tags.any (fun tag => 20 < tag.length) then
    ⟨.error ⟨"VALIDATION_ERROR", "Each tag must be a string of max 20 characters",
      [("field", "tags")]⟩, false, false, none⟩
  else if ¬pubCreatedOk then
    ⟨.ok (some (addFallbackTask r freshId now)), false, false,
      some (addFallbackTask r freshId now)⟩
  else if r.due_date.isSome ∧ ¬pubReminderOk then
    -- task.created already went out; the reminder publish raised, so the
    -- except branch also performs the direct insert
    ⟨.ok (some (addFallbackTask r freshId now)), true, false,
      some (addFallbackTask r freshId now)⟩
  else
    ⟨.ok none, true, r.due_date.isSome, none⟩

/-! ## Recurrence projection (`RecurringTaskService.create_next_occurrence`,
identical in `app/services/recurring_task_service.py` lines 80-117 and
`recurring-task-service/src/services/recurring_task_service.py` lines 65-102) -/

/-- The projected next-occurrence task. The calculation is seeded with
`datetime.utcnow()` — the completion-processing time `now` — not with the
completed task's due date. -/
def create_next_occurrence (completed_task : Task) (now : Date) (nowTs : Nat) :
    Option Task :=
  if ¬strTruthy completed_task.recurrence then none
  else
    match calculate_next_occurrence completed_task.recurrence
        completed_task.recurrence_rule now with
    | none => none
    | some nxt => some
        { id := none, user_id := completed_task.user_id,
          title := completed_task.title,
          description := completed_task.description, completed := false,
          priority := completed_task.priority, due_date := some nxt,
          tags := completed_task.tags, recurrence := completed_task.recurrence,
          recurrence_rule := completed_task.recurrence_rule,
          next_occurrence := none, created_at := nowTs, updated_at := nowTs }

/-- The save step of `create_next_occurrence`: the projected task (when any)
is committed to the store. This is the whole effect of processing one
`task.completed` event for a recurring task — no duplicate check is invoked
on the way. -/
def processCompletion (t : Task) (now : Date) (nowTs : Nat)
    (store : List Task) : List Task :=
  match create_next_occurrence t now nowTs with
  | none => store
  | some nt => store ++ [nt]

/-- Cross-type equality as evaluated in `prevent_duplicate_creation`
(`Task.user_id == task_id` in SQL, `task.title == task_id` in Python): a
TEXT column is never equal to an INTEGER value under SQLite's storage-class
comparison rules, and Python's `str == int` is always `False`. -/
def strIntEq (_ : String) (_ : Nat) : Bool := false

/-- `RecurringTaskService.prevent_duplicate_creation`
(`recurring-task-service/src/services/recurring_task_service.py`,
lines 104-133): select the tasks with `user_id == task_id` and the same
calendar due date, and return `False` (duplicate) when one of them has
`title == task_id` and the same recurrence; `True` otherwise. -/
def prevent_duplicate_creation (store : List Task) (task_id : Nat)
    (recurrence : String) (next_occurrence : Date) : Bool :=
  let existing := store.filter
    (fun t => strIntEq t.user_id task_id && t.due_date == some next_occurrence)
  !existing.any
    (fun t => strIntEq t.title task_id && t.recurrence == some recurrence)

/-! ## Notification Delivery Engine
(`notification-service/src/services/notification_service.py`) -/

/-- `NotificationService.send_notification` (lines 23-51): unconditionally
creates a *new* record with `status="sent"`, `sent_time=now` and
`delivery_attempts=1`; no channel provider is invoked and no existing row is
updated. (`ReminderConsumer.send_notification` builds the same record.) -/
def send_notification (user_id : String) (task_id : Nat)
    (due_date : Option Nat) (message channel : String) (now freshId : Nat) :
    Notification :=
  { id := freshId, task_id := task_id, user_id := user_id,
    scheduled_time := due_date.getD now, sent_time := some now,
    status := "sent", delivery_attempts := 1, channel := channel,
    message_content := message }

/-- One row's treatment inside `retry_failed_notifications` (lines 84-104):
a failed row below the attempt ceiling gets its counter incremented (the
status is not changed and nothing is re-sent); every other row is untouched. -/
def retryOne (n : Notification) : Notification :=
  if n.status = "failed" ∧ n.delivery_attempts < 3 then
    { n with delivery_attempts := n.delivery_attempts + 1 }
  else n

/-- `NotificationService.retry_failed_notifications`: the updated store and
the retried count. -/
def retry_failed_notifications (store : List Notification) :
    List Notification × Nat :=
  (store.map retryOne,
    (store.filter
      (fun n => n.status == "failed" && decide (n.delivery_attempts < 3))).length)

/-- `k` successive invocations of `retry_failed_notifications`. -/
def iterateRetry (k : Nat) (store : List Notification) : List Notification :=
  (fun s => (retry_failed_notifications s).1)^[k] store

/-- `NotificationService.record_delivery_failure` (lines 106-123): mark the
row failed and bump its attempt counter. -/
def record_delivery_failure (store : List Notification)
    (notification_id : Nat) : List Notification :=
  store.map (fun n =>
    if n.id == notification_id then
      { n with status := "failed", delivery_attempts := n.delivery_attempts + 1 }
    else n)

/-! ## Concrete fixtures used by witnesses and counterexamples -/

/-- Fixture: a dead-lettered notification (failed, at the attempt ceiling). -/
def deadNotification : Notification :=
  ⟨1, 1, "alice", 0, none, "failed", 3, "push", "reminder"⟩

/-- Fixture: task 42 owned by user B. -/
def taskB42 : Task :=
  ⟨some 42, "B", "secret plan", none, false, "medium", none, [], none, none,
    none, 0, 0⟩

/-- Fixture: a completed task owned by alice. -/
def doneTask : Task :=
  ⟨some 7, "alice", "write report", none, true, "medium", none, [], none,
    none, none, 0, 0⟩

/-- Fixture: the "Pay rent" monthly recurring task due 2026-01-31. -/
def payRent : Task :=
  ⟨some 7, "alice", "Pay rent", none, false, "medium", some ⟨2026, 1, 31⟩,
    [], some "monthly", none, none, 0, 0⟩

/-- Fixture: the task that `create_next_occurrence` projects from `payRent`
when the completion is processed at 2026-01-31 (timestamp 1). -/
def payRentNext : Task :=
  ⟨none, "alice", "Pay rent", none, false, "medium", some ⟨2026, 2, 28⟩,
    [], some "monthly", none, none, 1, 1⟩

/-- Fixture: a create request whose title has 201 characters. -/
def longTitleReq : AddReq :=
  ⟨"alice", String.mk (List.replicate 201 'a'), none, "medium", none, [],
    none, none⟩

/-- Fixture: a valid create request carrying a due date. -/
def dueReq : AddReq :=
  ⟨"alice", "report", none, "medium", some ⟨2026, 1, 31⟩, [], none, none⟩

/-! ## Claim theorems -/

theorem iterateRetry_map (k : Nat) (store : List Notification) :
    iterateRetry k store = store.map (retryOne^[k]) := by
  induction k with
  | zero => simp [iterateRetry]
  | succ m ih =>
    have h1 : iterateRetry (m + 1) store
        = (retry_failed_notifications (iterateRetry m store)).1 := by
      simp [iterateRetry, Function.iterate_succ_apply']
    rw [h1, ih]
    simp only [retry_failed_notifications, List.map_map]
    apply List.map_congr_left
    intro a _
    simp only [Function.comp]
    rw [← Function.iterate_succ_apply' retryOne m a, Function.iterate_succ_apply]

/-- C7: `retry_failed_notifications` modifies (retries) a row only when its
status is "failed" and its attempt counter is strictly below 3; a failed row
whose counter has reached 3 is left exactly as it is by any number of
further invocations, so it stays in its terminal failed state. -/
theorem retryFailed_terminal_never_retried :
    (∀ n : Notification,
        ¬(n.status = "failed" ∧ n.delivery_attempts < 3) → retryOne n = n)
    ∧ (∀ (store : List Notification) (i : Nat) (hi : i < store.length),
        store[i].status = "failed" → 3 ≤ store[i].delivery_attempts →
        ∀ k : Nat, (iterateRetry k store)[i]? = some store[i]) := by
  constructor
  · intro n h
    unfold retryOne
    rw [if_neg h]
  · intro store i hi hs ha k
    have hfix : retryOne store[i] = store[i] := by
      unfold retryOne
      rw [if_neg (by omega)]
    rw [iterateRetry_map, List.getElem?_map, List.getElem?_eq_getElem hi]
    simp [Function.iterate_fixed hfix k]

/-- Witness for C7: a concrete dead-lettered notification survives two
invocations unchanged. -/
theorem retryFailed_terminal_never_retried_witness :
    (iterateRetry 2 [deadNotification])[0]? = some ([deadNotification][0]) :=
  retryFailed_terminal_never_retried.2 [deadNotification] 0 (by decide)
    (by decide) (by decide) 2

/-- C8 counterexample: a successful delivery records status "sent", never
"delivered" — the claimed success postcondition `status = delivered` fails
on every send, here at a concrete one. -/
theorem send_notification_status_sent_not_delivered :
    (send_notification "alice" 1 none "msg" "push" 5 0).status = "sent"
    ∧ (send_notification "alice" 1 none "msg" "push" 5 0).status ≠ "delivered" := by
  constructor
  · rfl
  · decide

/-- C8 amended: the delivery path unconditionally creates a fresh
notification record with status "sent", `sent_time = now`, one delivery
attempt and the scheduled time taken from the due date when present (no
channel provider is consulted); the failure-recording path sets status
"failed" and increments the attempt counter on the matching row. -/
theorem deliver_effects :
    (∀ (uid : String) (tid : Nat) (due : Option Nat) (msg ch : String)
        (now fid : Nat),
      (send_notification uid tid due msg ch now fid).status = "sent"
      ∧ (send_notification uid tid due msg ch now fid).sent_time = some now
      ∧ (send_notification uid tid due msg ch now fid).delivery_attempts = 1
      ∧ (send_notification uid tid due msg ch now fid).scheduled_time = due.getD now)
    ∧ (∀ (store : List Notification) (n : Notification) (nid : Nat),
        n ∈ store → n.id = nid →
        { n with status := "failed", delivery_attempts := n.delivery_attempts + 1 }
          ∈ record_delivery_failure store nid) := by
  constructor
  · intro uid tid due msg ch now fid
    exact ⟨rfl, rfl, rfl, rfl⟩
  · intro store n nid hmem hid
    unfold record_delivery_failure
    refine List.mem_map.mpr ⟨n, hmem, ?_⟩
    simp [hid]

/-- Witness for C8's amended statement. -/
theorem deliver_effects_witness :
    { deadNotification with status := "failed", delivery_attempts := deadNotification.delivery_attempts + 1 }
      ∈ record_delivery_failure [deadNotification] 1 :=
  deliver_effects.2 [deadNotification] deadNotification 1 (by decide) rfl

/-- C2 counterexample: the NOT_FOUND raised when task 42 belongs to another
user and the NOT_FOUND raised when task 42 does not exist are different
error objects — the former says "Resource not found" with no details, the
latter "Task 42 not found" with a task_id detail — so the two cases are
distinguishable, contrary to the claimed indistinguishability. -/
theorem ownership_vs_missing_distinguishable :
    viewTaskExecute [taskB42] "A" 42
        = .error ⟨"NOT_FOUND", "Resource not found", []⟩
    ∧ viewTaskExecute [] "A" 42 = .error (notFoundTaskError 42)
    ∧ (⟨"NOT_FOUND", "Resource not found", []⟩ : MCPError)
        ≠ notFoundTaskError 42 := by
  refine ⟨?_, ?_, ?_⟩
  · simp [viewTaskExecute, taskB42, validate_ownership]
  · simp [viewTaskExecute]
  · decide

/-- C2 amended: when the owner differs from the requester the Ownership Gate
raises the constant generic error — code NOT_FOUND (so never UNAUTHORIZED),
message "Resource not found", no details and no resource data — independent
of the resource, and `TaskService.get_by_id` returns `None` exactly as for a
nonexistent task; only the error code, not the full error object, coincides
with the tools' nonexistent-task error. -/
theorem ownership_gate_generic_notfound :
    (∀ ro ru : String, ro ≠ ru →
        validate_ownership ro ru = some ⟨"NOT_FOUND", "Resource not found", []⟩)
    ∧ (∀ (store : List Task) (tid : Nat) (uid : String),
        (∀ t ∈ store, t.id = some tid → t.user_id ≠ uid) →
        get_by_id store tid uid = none)
    ∧ (∀ (store : List Task) (uid : String) (tid : Nat) (t : Task),
        uid ≠ "" → store.find? (fun x => x.id == some tid) = some t →
        t.user_id ≠ uid →
        viewTaskExecute store uid tid
          = .error ⟨"NOT_FOUND", "Resource not found", []⟩) := by
  refine ⟨?_, ?_, ?_⟩
  · intro ro ru h
    simp [validate_ownership, h]
  · intro store tid uid h
    unfold get_by_id
    rw [List.filter_eq_nil_iff.mpr]
    · rfl
    · intro t hmem
      by_cases hid : t.id = some tid
      · have := h t hmem hid
        simp [hid, this]
      · simp [hid]
  · intro store uid tid t hu hfind ho
    simp [viewTaskExecute, hu, hfind, validate_ownership, ho]

/-- Witness for C2's amended statement. -/
theorem ownership_gate_generic_notfound_witness :
    validate_ownership "B" "A" = some ⟨"NOT_FOUND", "Resource not found", []⟩ :=
  ownership_gate_generic_notfound.1 "B" "A" (by decide)

/-- C6 counterexample: `TaskService.toggle_complete` on an already-completed
task flips `completed` back to false instead of leaving it true: at the
store the complete operation is a toggle, not an idempotent set. -/
theorem toggle_complete_flips_completed :
    ((toggle_complete [doneTask] 7 "alice" 5).1.map (fun t => t.completed))
      = some false := by
  simp [toggle_complete, get_by_id, doneTask]

/-- C6 amended: completing an already-completed task through the complete
tool is idempotent — the fallback sets `completed := true` regardless, so
the record changes only in `updated_at`, and both paths return success —
but the store-level `toggle_complete` instead flips the flag, marking an
already-completed task incomplete. -/
theorem complete_idempotent_tool_toggle_service :
    (∀ (store : List Task) (uid : String) (tid now : Nat) (t : Task),
      uid ≠ "" → store.find? (fun x => x.id == some tid) = some t →
      t.user_id = uid → t.completed = true →
      (completeTaskExecute false store uid tid now).result
          = .ok (some { t with updated_at := now })
      ∧ ({ t with updated_at := now } : Task).completed = true)
    ∧ (∀ (store : List Task) (uid : String) (tid now : Nat),
        uid ≠ "" →
        (completeTaskExecute true store uid tid now).result = .ok none
        ∧ (completeTaskExecute true store uid tid now).storeAfter = store)
    ∧ (∀ (store : List Task) (tid : Nat) (uid : String) (now : Nat) (t : Task),
        get_by_id store tid uid = some t → t.completed = true →
        (toggle_complete store tid uid now).1
          = some { t with completed := false, updated_at := now }) := by
  refine ⟨?_, ?_, ?_⟩
  · intro store uid tid now t hu hfind ho hc
    have ht2 : ({ t with completed := true, updated_at := now } : Task)
        = { t with updated_at := now } := by
      cases t
      simp_all
    constructor
    · simp [completeTaskExecute, hu, completeFallback, hfind,
        validate_ownership, ho, ht2, hc]
    · simp [hc]
  · intro store uid tid now hu
    constructor <;> simp [completeTaskExecute, hu]
  · intro store tid uid now t hget hc
    simp [toggle_complete, hget, hc]

/-- Witness for C6's amended statement. -/
theorem complete_idempotent_tool_toggle_service_witness :
    (completeTaskExecute false [doneTask] "alice" 7 5).result
        = .ok (some { doneTask with updated_at := 5 })
    ∧ ({ doneTask with updated_at := 5 } : Task).completed = true :=
  complete_idempotent_tool_toggle_service.1 [doneTask] "alice" 7 5 doneTask
    (by decide) (by decide) rfl rfl

/-- C3 counterexample: completing the monthly "Pay rent" task (due
2026-01-31) at the completion time 2026-03-15 projects a task due
2026-04-15, not 2026-02-28: the next occurrence is computed from
`datetime.utcnow()` (the completion-processing time), not from the
completed task's due date. -/
theorem next_occurrence_seeded_with_now :
    ((create_next_occurrence payRent ⟨2026, 3, 15⟩ 9).map
        (fun nt => nt.due_date)) = some (some ⟨2026, 4, 15⟩)
    ∧ (some (⟨2026, 4, 15⟩ : Date)) ≠ some (⟨2026, 2, 28⟩ : Date) := by
  constructor
  · simp [create_next_occurrence, payRent, strTruthy,
      calculate_next_occurrence, monthlyNext, daysInMonth, isLeap]
  · decide

/-- C3 amended: completing a recurring task appends exactly one new task
whose due date is the next occurrence computed from the completion time,
with completed=false, next_occurrence=None and title, description,
priority, tags, recurrence and recurrence_rule copied from the source; the
projection is due 2026-02-28 exactly when the completion is processed at
2026-01-31 (the scenario's due date). -/
theorem completion_projection_fields :
    (∀ (t : Task) (now : Date) (ts : Nat) (nxt : Date),
      strTruthy t.recurrence = true →
      calculate_next_occurrence t.recurrence t.recurrence_rule now = some nxt →
      ∃ nt, create_next_occurrence t now ts = some nt
        ∧ nt.due_date = some nxt ∧ nt.completed = false
        ∧ nt.next_occurrence = none ∧ nt.title = t.title
        ∧ nt.description = t.description ∧ nt.priority = t.priority
        ∧ nt.tags = t.tags ∧ nt.recurrence = t.recurrence
        ∧ nt.recurrence_rule = t.recurrence_rule
        ∧ ∀ store : List Task, processCompletion t now ts store = store ++ [nt])
    ∧ (∀ ts : Nat,
        (create_next_occurrence payRent ⟨2026, 1, 31⟩ ts).map
            (fun nt => nt.due_date) = some (some ⟨2026, 2, 28⟩)) := by
  constructor
  · intro t now ts nxt htr hcalc
    refine ⟨{ id := none, user_id := t.user_id, title := t.title, description := t.description, completed := false, priority := t.priority, due_date := some nxt, tags := t.tags, recurrence := t.recurrence, recurrence_rule := t.recurrence_rule, next_occurrence := none, created_at := ts, updated_at := ts }, ?_, rfl, rfl, rfl, rfl, rfl, rfl, rfl, rfl, rfl, ?_⟩
    · simp [create_next_occurrence, htr, hcalc]
    · intro store
      simp [processCompletion, create_next_occurrence, htr, hcalc]
  · intro ts
    simp [create_next_occurrence, payRent, strTruthy,
      calculate_next_occurrence, monthlyNext, daysInMonth, isLeap]

/-- Witness for C3's amended statement. -/
theorem completion_projection_fields_witness :
    ∃ nt, create_next_occurrence payRent ⟨2026, 1, 31⟩ 1 = some nt
      ∧ nt.due_date = some ⟨2026, 2, 28⟩ ∧ nt.completed = false
      ∧ nt.next_occurrence = none ∧ nt.title = payRent.title
      ∧ nt.description = payRent.description ∧ nt.priority = payRent.priority
      ∧ nt.tags = payRent.tags ∧ nt.recurrence = payRent.recurrence
      ∧ nt.recurrence_rule = payRent.recurrence_rule
      ∧ ∀ store : List Task,
          processCompletion payRent ⟨2026, 1, 31⟩ 1 store = store ++ [nt] :=
  completion_projection_fields.1 payRent ⟨2026, 1, 31⟩ 1 ⟨2026, 2, 28⟩
    (by decide)
    (by simp [calculate_next_occurrence, payRent, monthlyNext, daysInMonth, isLeap])

/-- C4: processing the same completion event for the "Pay rent" task twice
inserts two identical next-occurrence tasks (same owner, same title) — no
duplicate check runs on the projection path — and
`prevent_duplicate_creation`, whose docstring promises to detect an
existing task with the same title and user, compares the owner and title
columns against the integer task id and therefore reports "no duplicate"
on every input. -/
theorem duplicate_completion_double_projection :
    processCompletion payRent ⟨2026, 1, 31⟩ 1
        (processCompletion payRent ⟨2026, 1, 31⟩ 1 [payRent])
      = [payRent, payRentNext, payRentNext]
    ∧ payRentNext.user_id = payRent.user_id
    ∧ payRentNext.title = payRent.title
    ∧ (∀ (store : List Task) (tid : Nat) (rec : String) (nxt : Date),
        prevent_duplicate_creation store tid rec nxt = true) := by
  refine ⟨?_, rfl, rfl, ?_⟩
  · simp [processCompletion, create_next_occurrence, payRent, payRentNext,
      strTruthy, calculate_next_occurrence, monthlyNext, daysInMonth, isLeap]
  · intro store tid rec nxt
    simp [prevent_duplicate_creation, strIntEq]

set_option maxRecDepth 20000 in
/-- C9 counterexample: a create request whose title has 201 characters is
not rejected — `AddTaskTool.execute` has no title-length check — and on the
fallback path the over-long title is persisted. -/
theorem long_title_not_rejected :
    longTitleReq.title.length = 201
    ∧ (addTaskExecute false false longTitleReq 3 0).result
        = .ok (some (addFallbackTask longTitleReq 3 0))
    ∧ (addTaskExecute false false longTitleReq 3 0).inserted
        = some (addFallbackTask longTitleReq 3 0)
    ∧ (addFallbackTask longTitleReq 3 0).title.length = 201 := by
  refine ⟨by decide, ?_, ?_, by decide⟩ <;>
    simp [addTaskExecute, longTitleReq, pyStrip, addFallbackTask]

/-- C9 amended: a create request through the add-task tool with an empty
(or whitespace-only) title, a priority outside {high, medium, low}, more
than 10 tags, or a tag longer than 20 characters fails with a
VALIDATION_ERROR naming the offending field, and neither publish nor
insert happens for it; a title longer than 200 characters is not checked,
and `TaskService.create_advanced` does not raise on an invalid priority but
silently coerces it to "medium" and persists the task. -/
theorem addTask_validation_and_service_coercion :
    (∀ (pc pr : Bool) (r : AddReq) (fid now : Nat),
      r.user_id ≠ "" →
      (pyStrip r.title = ""
        ∨ ¬(r.priority = "high" ∨ r.priority = "medium" ∨ r.priority = "low")
        ∨ 10 < r.tags.length
        ∨ ∃ tag ∈ r.tags, 20 < tag.length) →
      ∃ e, (addTaskExecute pc pr r fid now).result = .error e
        ∧ e.code = "VALIDATION_ERROR"
        ∧ (e.details = [("field", "title")] ∨ e.details = [("field", "priority")]
            ∨ e.details = [("field", "tags")])
        ∧ (addTaskExecute pc pr r fid now).publishedCreated = false
        ∧ (addTaskExecute pc pr r fid now).inserted = none)
    ∧ (∀ (store : List Task) (uid title : String) (desc : Option String)
        (priority : String) (due : Option Date) (tags : List String)
        (rec rule : Option String) (now : Nat),
      ¬(priority = "high" ∨ priority = "medium" ∨ priority = "low") →
      (create_advanced store uid title desc priority due tags rec rule now).2.priority
          = "medium"
      ∧ (create_advanced store uid title desc priority due tags rec rule now).1
          = store ++ [(create_advanced store uid title desc priority due tags rec rule now).2]) := by
  constructor
  · intro pc pr r fid now hu hviol
    unfold addTaskExecute
    rw [if_neg (by simp [hu])]
    by_cases h1 : pyStrip r.title = ""
    · rw [if_pos h1]
      exact ⟨_, rfl, rfl, Or.inl rfl, rfl, rfl⟩
    · rw [if_neg h1]
      by_cases h2 : r.priority = "high" ∨ r.priority = "medium" ∨ r.priority = "low"
      · rw [if_neg (not_not_intro h2)]
        by_cases h3 : r.tags ≠ [] ∧ 10 < r.tags.length
        · rw [if_pos h3]
          exact ⟨_, rfl, rfl, Or.inr (Or.inr rfl), rfl, rfl⟩
        · rw [if_neg h3]
          by_cases h4 : r.tags ≠ [] ∧ r.tags.any (fun tag => 20 < tag.length)
          · rw [if_pos h4]
            exact ⟨_, rfl, rfl, Or.inr (Or.inr rfl), rfl, rfl⟩
          · exfalso
            rcases hviol with hv | hv | hv | hv
            · exact h1 hv
            · exact hv h2
            · exact h3 ⟨by intro he; rw [he] at hv; simp at hv, hv⟩
            · obtain ⟨tag, htag, hlen⟩ := hv
              refine h4 ⟨by intro he; rw [he] at htag; simp at htag, ?_⟩
              exact List.any_eq_true.mpr ⟨tag, htag, by simpa using hlen⟩
      · rw [if_pos h2]
        exact ⟨_, rfl, rfl, Or.inr (Or.inl rfl), rfl, rfl⟩
  · intro store uid title desc priority due tags rec rule now hp
    constructor
    · simp [create_advanced, hp]
    · simp [create_advanced]

/-- Witness for C9's amended statement. -/
theorem addTask_validation_witness :
    ∃ e, (addTaskExecute true true ⟨"alice", "", none, "medium", none, [], none, none⟩ 3 0).result = .error e
      ∧ e.code = "VALIDATION_ERROR"
      ∧ (e.details = [("field", "title")] ∨ e.details = [("field", "priority")]
          ∨ e.details = [("field", "tags")])
      ∧ (addTaskExecute true true ⟨"alice", "", none, "medium", none, [], none, none⟩ 3 0).publishedCreated = false
      ∧ (addTaskExecute true true ⟨"alice", "", none, "medium", none, [], none, none⟩ 3 0).inserted = none :=
  addTask_validation_and_service_coercion.1 true true
    ⟨"alice", "", none, "medium", none, [], none, none⟩ 3 0 (by decide)
    (Or.inl (by decide))

/-- C1 counterexample: for a create request with a due date, when the
`task.created` publish succeeds but the subsequent `task.due_scheduled`
publish raises, the except-branch runs the direct insert as well — the
intent event is on the bus *and* the row is committed, so both paths
produce a persisted effect. -/
theorem both_paths_on_reminder_failure :
    (addTaskExecute true false dueReq 3 0).publishedCreated = true
    ∧ (addTaskExecute true false dueReq 3 0).inserted
        = some (addFallbackTask dueReq 3 0) := by
  constructor <;> simp [addTaskExecute, dueReq, pyStrip]

/-- C1 amended: for every valid mutation request, exactly one of the bus
path and the synchronous fallback produces a persisted effect — provided
that, when the intent publish succeeds, no later publish in the same try
block fails (for create-with-due-date the reminder publish). Under that
proviso: if the intent publish succeeds only the provisional bus result
occurs (no store write); if it raises, the mutation is applied exactly once
directly against the store within the same call. For the complete tool,
which performs a single publish, the dichotomy holds unconditionally. -/
theorem dual_path_exactly_one_effect :
    (∀ (pc pr : Bool) (r : AddReq) (fid now : Nat),
      r.user_id ≠ "" → pyStrip r.title ≠ "" →
      (r.priority = "high" ∨ r.priority = "medium" ∨ r.priority = "low") →
      ¬(r.tags ≠ [] ∧ 10 < r.tags.length) →
      ¬(r.tags ≠ [] ∧ r.tags.any (fun tag => 20 < tag.length)) →
      ¬(pc = true ∧ r.due_date.isSome ∧ pr = false) →
      ((addTaskExecute pc pr r fid now).publishedCreated = true
          ∧ (addTaskExecute pc pr r fid now).inserted = none)
      ∨ ((addTaskExecute pc pr r fid now).publishedCreated = false
          ∧ (addTaskExecute pc pr r fid now).inserted
              = some (addFallbackTask r fid now)))
    ∧ (∀ (p : Bool) (store : List Task) (uid : String) (tid now : Nat) (t : Task),
      uid ≠ "" → store.find? (fun x => x.id == some tid) = some t →
      t.user_id = uid →
      ((completeTaskExecute p store uid tid now).published = true
          ∧ (completeTaskExecute p store uid tid now).dbMutated = false
          ∧ (completeTaskExecute p store uid tid now).storeAfter = store)
      ∨ ((completeTaskExecute p store uid tid now).published = false
          ∧ (completeTaskExecute p store uid tid now).dbMutated = true)) := by
  constructor
  · intro pc pr r fid now hu ht hp h3 h4 hprov
    unfold addTaskExecute
    rw [if_neg (by simp [hu]), if_neg ht, if_neg (not_not_intro hp),
      if_neg h3, if_neg h4]
    cases pc with
    | false => right; simp
    | true =>
      rw [if_neg (by simp)]
      left
      have hdr : ¬(r.due_date.isSome ∧ ¬pr = true) := by
        intro ⟨hd, hpr⟩
        exact hprov ⟨rfl, hd, by simpa using hpr⟩
      rw [if_neg hdr]
      exact ⟨rfl, rfl⟩
  · intro p store uid tid now t hu hfind ho
    cases p with
    | true =>
      left
      refine ⟨?_, ?_, ?_⟩ <;> simp [completeTaskExecute, hu]
    | false =>
      right
      constructor <;>
        simp [completeTaskExecute, hu, completeFallback, hfind,
          validate_ownership, ho]

/-- Witness for C1's amended statement. -/
theorem dual_path_exactly_one_effect_witness :
    ((addTaskExecute false false dueReq 3 0).publishedCreated = true
        ∧ (addTaskExecute false false dueReq 3 0).inserted = none)
    ∨ ((addTaskExecute false false dueReq 3 0).publishedCreated = false
        ∧ (addTaskExecute false false dueReq 3 0).inserted
            = some (addFallbackTask dueReq 3 0)) :=
  dual_path_exactly_one_effect.1 false false dueReq 3 0 (by decide) (by decide)
    (Or.inr (Or.inl rfl)) (by simp [dueReq]) (by simp [dueReq]) (by simp)

/-- C10: the delete tool deletes synchronously in the same call on both
paths: on a successful publish the task is still deleted through the
tool's own session (the result is never merely provisional), and on a
publish failure the deletion happens in a fresh session after re-reading
the task and re-running the Ownership Gate against that fresh state — in
particular, if the freshly read owner no longer matches, nothing is
deleted and the generic NOT_FOUND is raised. -/
theorem delete_synchronous_both_paths :
    (∀ (s1 s2 : List Task) (uid : String) (tid : Nat) (t : Task),
      uid ≠ "" → s1.find? (fun x => x.id == some tid) = some t →
      t.user_id = uid →
      (deleteTaskExecute true s1 s2 uid tid).result = .ok (tid, t.title)
      ∧ (deleteTaskExecute true s1 s2 uid tid).deletedInS1 = true
      ∧ (deleteTaskExecute true s1 s2 uid tid).s1After
          = s1.filter (fun x => x.id != some tid)
      ∧ (deleteTaskExecute true s1 s2 uid tid).published = true)
    ∧ (∀ (s1 s2 : List Task) (uid : String) (tid : Nat) (t t2 : Task),
      uid ≠ "" → s1.find? (fun x => x.id == some tid) = some t →
      t.user_id = uid → s2.find? (fun x => x.id == some tid) = some t2 →
      t2.user_id = uid →
      (deleteTaskExecute false s1 s2 uid tid).result = .ok (tid, t.title)
      ∧ (deleteTaskExecute false s1 s2 uid tid).deletedInS2 = true
      ∧ (deleteTaskExecute false s1 s2 uid tid).s2After
          = s2.filter (fun x => x.id != some tid)
      ∧ (deleteTaskExecute false s1 s2 uid tid).published = false)
    ∧ (∀ (s1 s2 : List Task) (uid : String) (tid : Nat) (t t2 : Task),
      uid ≠ "" → s1.find? (fun x => x.id == some tid) = some t →
      t.user_id = uid → s2.find? (fun x => x.id == some tid) = some t2 →
      t2.user_id ≠ uid →
      (deleteTaskExecute false s1 s2 uid tid).result
          = .error ⟨"NOT_FOUND", "Resource not found", []⟩
      ∧ (deleteTaskExecute false s1 s2 uid tid).deletedInS2 = false
      ∧ (deleteTaskExecute false s1 s2 uid tid).s2After = s2) := by
  refine ⟨?_, ?_, ?_⟩
  · intro s1 s2 uid tid t hu hfind ho
    refine ⟨?_, ?_, ?_, ?_⟩ <;>
      simp [deleteTaskExecute, hu, hfind, validate_ownership, ho]
  · intro s1 s2 uid tid t t2 hu hfind ho hfind2 ho2
    refine ⟨?_, ?_, ?_, ?_⟩ <;>
      simp [deleteTaskExecute, hu, hfind, hfind2, validate_ownership, ho, ho2]
  · intro s1 s2 uid tid t t2 hu hfind ho hfind2 ho2
    refine ⟨?_, ?_, ?_⟩ <;>
      simp [deleteTaskExecute, hu, hfind, hfind2, validate_ownership, ho, ho2]

/-- Witness for C10. -/
theorem delete_synchronous_both_paths_witness :
    (deleteTaskExecute true [doneTask] [] "alice" 7).result
        = .ok (7, doneTask.title)
    ∧ (deleteTaskExecute true [doneTask] [] "alice" 7).deletedInS1 = true
    ∧ (deleteTaskExecute true [doneTask] [] "alice" 7).s1After
        = [doneTask].filter (fun x => x.id != some 7)
    ∧ (deleteTaskExecute true [doneTask] [] "alice" 7).published = true :=
  delete_synchronous_both_paths.1 [doneTask] [] "alice" 7 doneTask
    (by decide) (by decide) rfl

end TodoApp

